import Mathlib

/-!
# Verification of the mock-cloud-api resource lifecycle subsystem

Shallow embedding of the repository's data model (`app/models.py`), the
orchestration service layer (`app/services.py` together with the helpers of
`app/database_utils.py`) and the asynchronous worker tasks (`app/worker.py`).

Modelling conventions:
* The relational store is a record of lists, one per table, each with its own
  autoincrement counter (Postgres sequences start at 1).
* Committed state only: a service call that raises before `commit` leaves the
  store unchanged (the session is rolled back when the request-scoped session
  is closed), so every operation returns the (possibly unchanged) store
  together with an `Except` result.
* `ForeignKey` columns declared in `app/models.py` are enforced at insert
  time by the backing Postgres store (`app/config.py` points at Postgres):
  inserting a dangling reference raises `IntegrityError`, which
  `safe_db_operation` in `app/database_utils.py` converts to
  `DatabaseException` because an FK-violation message contains neither
  "duplicate key" nor "unique constraint".
* Randomness (`random.random()`, `random.randint`) is passed in explicitly as
  an oracle: `sample : ℚ` models the float drawn by `random.random()` (a value
  in `[0,1)`), and `randint lo hi seed = lo + seed % (hi - lo + 1)` models an
  arbitrary inclusive-range draw.
* Unexpected exceptions inside a worker task are modelled by an explicit
  crash point: `CrashPoint.duringWork` injects an exception after the task's
  first commit (for example inside the progress/sleep loop), which is exactly
  the region the `except` branches of `app/worker.py` guard.
-/

namespace MockCloud

/-- `ResourceStatus` enum of `app/models.py`. -/
inductive ResourceStatus where
  | pending | creating | active | failed | deleting | deleted
deriving DecidableEq

/-- `VMStatus` enum of `app/models.py`. -/
inductive VMStatus where
  | pending | starting | running | stopped | failed | deleting | deleted
deriving DecidableEq

/-- `VolumeStatus` enum of `app/models.py`. -/
inductive VolumeStatus where
  | pending | creating | available | in_use | failed | deleting | deleted
deriving DecidableEq

/-- Row of the `environments` table (`Environment` model). -/
structure EnvRec where
  id : Nat
  name : String
  network_cidr : String
  description : Option String
deriving DecidableEq

/-- Row of the `security_groups` table (`SecurityGroup` model). -/
structure SGRec where
  id : Nat
  name : String
  description : Option String
  rules : Option String
deriving DecidableEq

/-- Row of the `vms` table (`VM` model).  The synthesized address is kept as
its four octets (`ip_parts` in `app/worker.py`); the source joins them with
dots into a string. -/
structure VMRec where
  id : Nat
  name : String
  instance_type : String
  status : VMStatus
  resource_status : ResourceStatus
  ip_address : Option (Nat × Nat × Nat × Nat)
  environment_id : Nat
  security_group_id : Option Nat
deriving DecidableEq

/-- Row of the `volumes` table (`Volume` model). -/
structure VolumeRec where
  id : Nat
  name : String
  size_gb : Nat
  status : VolumeStatus
  resource_status : ResourceStatus
  environment_id : Nat
  vm_id : Option Nat
deriving DecidableEq

/-- The committed relational store: one list per table, in insertion order,
plus the autoincrement counter of each table's primary-key sequence. -/
structure Store where
  environments : List EnvRec
  security_groups : List SGRec
  vms : List VMRec
  volumes : List VolumeRec
  next_env_id : Nat
  next_sg_id : Nat
  next_vm_id : Nat
  next_volume_id : Nat
deriving DecidableEq

/-- Empty store, counters at 1 as Postgres sequences start. -/
def Store.empty : Store :=
  { environments := [], security_groups := [], vms := [], volumes := []
    next_env_id := 1, next_sg_id := 1, next_vm_id := 1, next_volume_id := 1 }

/-- `EnvironmentCreate` request schema (`app/schemas.py`). -/
structure EnvironmentCreate where
  name : String
  network_cidr : String := "10.0.0.0/16"
  description : Option String := none
deriving DecidableEq

/-- `SecurityGroupCreate` request schema (`app/schemas.py`). -/
structure SecurityGroupCreate where
  name : String
  description : Option String := none
  rules : Option String := none
deriving DecidableEq

/-- `VMCreate` request schema (`app/schemas.py`). -/
structure VMCreate where
  name : String
  instance_type : String
  environment_id : Nat
  security_group_id : Option Nat := none
deriving DecidableEq

/-- `VolumeCreate` request schema (`app/schemas.py`); note the optional
`vm_id` field, passed straight into the new `Volume` row by
`create_resource(db, Volume, volume.dict(), ...)`. -/
structure VolumeCreate where
  name : String
  size_gb : Nat
  environment_id : Nat
  vm_id : Option Nat := none
deriving DecidableEq

/-- Failure outcomes visible to a service caller: the tagged
`MockCloudException`s of `app/exceptions.py`, plus `nameError` for the
unhandled Python `NameError` raised in `app/services.py` where the name
`VolumeStatus` is referenced without being imported (the API layer maps it to
a generic 500). -/
inductive Err where
  | notFound | alreadyExists | validationError | databaseError | nameError
deriving DecidableEq

/-- `db.query(Model).filter(Model.id == id).first()` on the vms table. -/
def findVM (s : Store) (id : Nat) : Option VMRec :=
  s.vms.find? (fun v => v.id = id)

/-- `first()` lookup by id on the volumes table. -/
def findVolume (s : Store) (id : Nat) : Option VolumeRec :=
  s.volumes.find? (fun v => v.id = id)

/-- `first()` lookup by id on the environments table. -/
def findEnv (s : Store) (id : Nat) : Option EnvRec :=
  s.environments.find? (fun e => e.id = id)

/-- `first()` lookup by id on the security_groups table. -/
def findSG (s : Store) (id : Nat) : Option SGRec :=
  s.security_groups.find? (fun g => g.id = id)

/-- Committing an update of the vms row with primary key `id`. -/
def updVM (s : Store) (id : Nat) (w : VMRec) : Store :=
  { s with vms := s.vms.map (fun v => if v.id = id then w else v) }

/-- Committing an update of the volumes row with primary key `id`. -/
def updVolume (s : Store) (id : Nat) (w : VolumeRec) : Store :=
  { s with volumes := s.volumes.map (fun v => if v.id = id then w else v) }

/-- `settings.worker_failure_rate` (`app/config.py`): `0.1  # 1/10 chance`.
Written with `mkRat` so that the kernel can evaluate comparisons against it;
`worker_failure_rate_eq` below shows it is the rational `1/10`. -/
def worker_failure_rate : ℚ := mkRat 1 10

theorem worker_failure_rate_eq : worker_failure_rate = 1 / 10 := by
  rw [worker_failure_rate, Rat.mkRat_eq_div]; norm_num

/-- `random.randint(lo, hi)` (inclusive bounds), driven by an arbitrary seed. -/
def randint (lo hi seed : Nat) : Nat := lo + seed % (hi - lo + 1)

/-- The random draws a single worker task may perform: `sample` is the float
returned by `random.random()` in the failure-injection check, `xseed`/`yseed`
drive the two `random.randint` calls that pick the third and fourth address
octets.  (The drawn creation duration only controls sleeping and progress
reporting, not the store, so it needs no oracle field.) -/
structure Oracle where
  sample : ℚ
  xseed : Nat
  yseed : Nat
deriving DecidableEq

/-- Injection point of an unexpected exception inside a worker task:
`duringWork` raises after the task's first commit (e.g. inside the
progress/sleep loop), the region guarded by the `except` branches of
`app/worker.py`; `noCrash` lets the task run to its end. -/
inductive CrashPoint where
  | noCrash | duringWork
deriving DecidableEq

/-- Outcome a task returns (`{"status": "success" | "failed", ...}`). -/
inductive TaskResult where
  | success | failure
deriving DecidableEq

/-- `create_vm_task` of `app/worker.py`.  Returns the resulting store, the
list of `resource_status` values committed for the targeted row (in commit
order), and the task's reported outcome. -/
def create_vm_task (s : Store) (id : Nat) (o : Oracle) (c : CrashPoint) :
    Store × List ResourceStatus × TaskResult :=
  match findVM s id with
  | none => (s, [], .failure)
  | some vm =>
    let vm1 : VMRec := { vm with resource_status := .creating, status := .starting }
    let s1 := updVM s id vm1
    if o.sample < worker_failure_rate then
      let vm2 : VMRec := { vm1 with resource_status := .failed, status := .failed }
      (updVM s1 id vm2, [.creating, .failed], .failure)
    else
      match c with
      | .duringWork =>
        -- unhandled exception during the progress loop; the `except` branch
        -- sets FAILED/FAILED and commits (`vm` is bound and truthy here)
        let vm2 : VMRec := { vm1 with resource_status := .failed, status := .failed }
        (updVM s1 id vm2, [.creating, .failed], .failure)
      | .noCrash =>
        let ip : Nat × Nat × Nat × Nat := (10, 0, randint 0 255 o.xseed, randint 1 254 o.yseed)
        let vm2 : VMRec :=
          { vm1 with resource_status := .active, status := .running, ip_address := some ip }
        (updVM s1 id vm2, [.creating, .active], .success)

/-- `create_volume_task` of `app/worker.py`. -/
def create_volume_task (s : Store) (id : Nat) (o : Oracle) (c : CrashPoint) :
    Store × List ResourceStatus × TaskResult :=
  match findVolume s id with
  | none => (s, [], .failure)
  | some vol =>
    let v1 : VolumeRec := { vol with resource_status := .creating, status := .creating }
    let s1 := updVolume s id v1
    if o.sample < worker_failure_rate then
      let v2 : VolumeRec := { v1 with resource_status := .failed, status := .failed }
      (updVolume s1 id v2, [.creating, .failed], .failure)
    else
      match c with
      | .duringWork =>
        let v2 : VolumeRec := { v1 with resource_status := .failed, status := .failed }
        (updVolume s1 id v2, [.creating, .failed], .failure)
      | .noCrash =>
        let v2 : VolumeRec := { v1 with resource_status := .active, status := .available }
        (updVolume s1 id v2, [.creating, .active], .success)

/-- `delete_vm_task` of `app/worker.py`.  Note that its `except` branch only
returns a failure message: unlike the create tasks it never touches the row,
so a crash after the first commit leaves the row in `deleting`. -/
def delete_vm_task (s : Store) (id : Nat) (c : CrashPoint) :
    Store × List ResourceStatus × TaskResult :=
  match findVM s id with
  | none => (s, [], .failure)
  | some vm =>
    let vm1 : VMRec := { vm with resource_status := .deleting, status := .deleting }
    let s1 := updVM s id vm1
    match c with
    | .duringWork => (s1, [.deleting], .failure)
    | .noCrash =>
      let vm2 : VMRec := { vm1 with resource_status := .deleted, status := .deleted }
      (updVM s1 id vm2, [.deleting, .deleted], .success)

/-- `delete_volume_task` of `app/worker.py`.  Like `delete_vm_task`, its
`except` branch leaves the row untouched, and neither branch clears `vm_id`. -/
def delete_volume_task (s : Store) (id : Nat) (c : CrashPoint) :
    Store × List ResourceStatus × TaskResult :=
  match findVolume s id with
  | none => (s, [], .failure)
  | some vol =>
    let v1 : VolumeRec := { vol with resource_status := .deleting, status := .deleting }
    let s1 := updVolume s id v1
    match c with
    | .duringWork => (s1, [.deleting], .failure)
    | .noCrash =>
      let v2 : VolumeRec := { v1 with resource_status := .deleted, status := .deleted }
      (updVolume s1 id v2, [.deleting, .deleted], .success)

/-- A task sitting on the Celery queue (`.delay(...)` call sites in
`app/services.py`), identified by kind and target row id. -/
inductive Task where
  | createVm (id : Nat)
  | createVolume (id : Nat)
  | deleteVm (id : Nat)
  | deleteVolume (id : Nat)
deriving DecidableEq

/-- State of the whole system: the committed store, the queue of tasks not
yet executed, the append-only list of every task ever enqueued (in enqueue
order), and the `.delay` calls a create handler has committed its row for
but not yet performed.  In `app/services.py` the row commit
(`create_resource`) and the task enqueue (`.delay`) are two separate steps
of the handler: between them other concurrently running handlers may act,
and the `.delay` itself can raise (broker failure), in which case the row
exists but its create task is never enqueued.  `inflight` holds these
pending enqueue obligations. -/
structure Sys where
  store : Store
  queued : List Task
  history : List Task
  inflight : List Task
deriving DecidableEq

/-- Initial system state: empty store, nothing enqueued. -/
def Sys.init : Sys := { store := Store.empty, queued := [], history := [], inflight := [] }

/-- Enqueue a task (`task = xxx_task.delay(...)`). -/
def Sys.enqueue (sys : Sys) (t : Task) : Sys :=
  { sys with queued := sys.queued ++ [t], history := sys.history ++ [t] }

/-- `check_resource_exists(db, Model, "name", name, ...)` of
`app/database_utils.py`, instantiated at each table. -/
def envNameExists (s : Store) (n : String) : Bool := s.environments.any (fun e => e.name = n)

/-- Name-existence check on the security_groups table. -/
def sgNameExists (s : Store) (n : String) : Bool := s.security_groups.any (fun g => g.name = n)

/-- Name-existence check on the vms table. -/
def vmNameExists (s : Store) (n : String) : Bool := s.vms.any (fun v => v.name = n)

/-- Name-existence check on the volumes table. -/
def volumeNameExists (s : Store) (n : String) : Bool := s.volumes.any (fun v => v.name = n)

/-- `EnvironmentService.create_environment`: name-uniqueness check, then
`create_resource` commits the new row (`Environment` has no FK columns). -/
def create_environment (sys : Sys) (spec : EnvironmentCreate) : Sys × Except Err EnvRec :=
  if envNameExists sys.store spec.name then
    (sys, .error .alreadyExists)
  else
    let e : EnvRec :=
      { id := sys.store.next_env_id, name := spec.name
        network_cidr := spec.network_cidr, description := spec.description }
    ({ sys with
        store := { sys.store with
          environments := sys.store.environments ++ [e]
          next_env_id := sys.store.next_env_id + 1 } },
     .ok e)

/-- `SecurityGroupService.create_security_group`. -/
def create_security_group (sys : Sys) (spec : SecurityGroupCreate) : Sys × Except Err SGRec :=
  if sgNameExists sys.store spec.name then
    (sys, .error .alreadyExists)
  else
    let g : SGRec :=
      { id := sys.store.next_sg_id, name := spec.name
        description := spec.description, rules := spec.rules }
    ({ sys with
        store := { sys.store with
          security_groups := sys.store.security_groups ++ [g]
          next_sg_id := sys.store.next_sg_id + 1 } },
     .ok g)

/-- `VMService.create_vm` run start to finish without interruption:
name-uniqueness check; then `create_resource` commits the new row — the
insert violates a declared FK constraint when `environment_id` (or a
supplied `security_group_id`) references no row, which `safe_db_operation`
surfaces as `DatabaseException`; on success a `create_vm_task` is enqueued.
No existence check of the referenced environment or security group is
performed by the service itself.  In the running system the row commit and
the `.delay` are two separate steps with a window in between; that
decomposition is modelled by `create_vm_commit` plus `flushInflight` /
`dropInflight` below, and `create_vm_eq_commit_flush` shows this function is
exactly the commit step immediately followed by flushing its own
obligation. -/
def create_vm (sys : Sys) (spec : VMCreate) : Sys × Except Err Nat :=
  if vmNameExists sys.store spec.name then
    (sys, .error .alreadyExists)
  else if (findEnv sys.store spec.environment_id).isNone
      || spec.security_group_id.any (fun g => (findSG sys.store g).isNone) then
    (sys, .error .databaseError)
  else
    let id := sys.store.next_vm_id
    let vm : VMRec :=
      { id := id, name := spec.name, instance_type := spec.instance_type
        status := .pending, resource_status := .pending, ip_address := none
        environment_id := spec.environment_id
        security_group_id := spec.security_group_id }
    let sys' : Sys :=
      { sys with
        store := { sys.store with
          vms := sys.store.vms ++ [vm], next_vm_id := id + 1 } }
    (sys'.enqueue (.createVm id), .ok id)

/-- `VolumeService.create_volume` run start to finish without interruption:
like `create_vm`; the optional `vm_id` from the request schema is inserted
verbatim into the new row (FK-checked against the vms table when non-null).
The two-phase decomposition into row commit and later `.delay` is modelled
by `create_volume_commit` plus `flushInflight` / `dropInflight`, and
`create_volume_eq_commit_flush` shows this function is the commit step
immediately followed by flushing its own obligation. -/
def create_volume (sys : Sys) (spec : VolumeCreate) : Sys × Except Err Nat :=
  if volumeNameExists sys.store spec.name then
    (sys, .error .alreadyExists)
  else if (findEnv sys.store spec.environment_id).isNone
      || spec.vm_id.any (fun v => (findVM sys.store v).isNone) then
    (sys, .error .databaseError)
  else
    let id := sys.store.next_volume_id
    let vol : VolumeRec :=
      { id := id, name := spec.name, size_gb := spec.size_gb
        status := .pending, resource_status := .pending
        environment_id := spec.environment_id, vm_id := spec.vm_id }
    let sys' : Sys :=
      { sys with
        store := { sys.store with
          volumes := sys.store.volumes ++ [vol], next_volume_id := id + 1 } }
    (sys'.enqueue (.createVolume id), .ok id)

/-- The first phase of `VMService.create_vm` as it executes in time: the
name check and the row insert committed by `create_resource`.  The
subsequent `create_vm_task.delay({"id": id})` call is a separate step: the
obligation is recorded in `inflight`, to be performed later by
`flushInflight` or lost to a raising `.delay` (`dropInflight`); other
requests may interleave in between. -/
def create_vm_commit (sys : Sys) (spec : VMCreate) : Sys × Except Err Nat :=
  if vmNameExists sys.store spec.name then
    (sys, .error .alreadyExists)
  else if (findEnv sys.store spec.environment_id).isNone
      || spec.security_group_id.any (fun g => (findSG sys.store g).isNone) then
    (sys, .error .databaseError)
  else
    let id := sys.store.next_vm_id
    let vm : VMRec :=
      { id := id, name := spec.name, instance_type := spec.instance_type
        status := .pending, resource_status := .pending, ip_address := none
        environment_id := spec.environment_id
        security_group_id := spec.security_group_id }
    ({ sys with
        store := { sys.store with
          vms := sys.store.vms ++ [vm], next_vm_id := id + 1 }
        inflight := sys.inflight ++ [.createVm id] },
     .ok id)

/-- The first phase of `VolumeService.create_volume`: row insert committed,
`.delay` still pending as an `inflight` obligation. -/
def create_volume_commit (sys : Sys) (spec : VolumeCreate) : Sys × Except Err Nat :=
  if volumeNameExists sys.store spec.name then
    (sys, .error .alreadyExists)
  else if (findEnv sys.store spec.environment_id).isNone
      || spec.vm_id.any (fun v => (findVM sys.store v).isNone) then
    (sys, .error .databaseError)
  else
    let id := sys.store.next_volume_id
    let vol : VolumeRec :=
      { id := id, name := spec.name, size_gb := spec.size_gb
        status := .pending, resource_status := .pending
        environment_id := spec.environment_id, vm_id := spec.vm_id }
    ({ sys with
        store := { sys.store with
          volumes := sys.store.volumes ++ [vol], next_volume_id := id + 1 }
        inflight := sys.inflight ++ [.createVolume id] },
     .ok id)

/-- `VMService.delete_vm`: `get_resource_by_id` (raises `NotFound` when the
row is absent), then unconditionally enqueues a `delete_vm_task`. -/
def delete_vm (sys : Sys) (id : Nat) : Sys × Except Err Unit :=
  match findVM sys.store id with
  | none => (sys, .error .notFound)
  | some _ => (sys.enqueue (.deleteVm id), .ok ())

/-- `VolumeService.delete_volume`: lookup then enqueue. -/
def delete_volume (sys : Sys) (id : Nat) : Sys × Except Err Unit :=
  match findVolume sys.store id with
  | none => (sys, .error .notFound)
  | some _ => (sys.enqueue (.deleteVolume id), .ok ())

/-- `VolumeService.attach_volume_to_vm`: looks up the volume then the VM
(each can raise `NotFound`); then `volume.status = VolumeStatus.IN_USE`
raises `NameError` (`VolumeStatus` is not imported in `app/services.py`)
before `safe_commit` is reached.  The uncommitted in-memory assignment
`volume.vm_id = vm_id` is rolled back when the request-scoped session
closes, so the store is unchanged. -/
def attach_volume_to_vm (sys : Sys) (volume_id vm_id : Nat) : Sys × Except Err Bool :=
  match findVolume sys.store volume_id with
  | none => (sys, .error .notFound)
  | some _ =>
    match findVM sys.store vm_id with
    | none => (sys, .error .notFound)
    | some _ => (sys, .error .nameError)

/-- `VolumeService.detach_volume_from_vm`: volume lookup, then
`volume.status = VolumeStatus.AVAILABLE` raises the same `NameError` before
`safe_commit`; the store is unchanged. -/
def detach_volume_from_vm (sys : Sys) (volume_id : Nat) : Sys × Except Err Bool :=
  match findVolume sys.store volume_id with
  | none => (sys, .error .notFound)
  | some _ => (sys, .error .nameError)

/-- Dispatch a dequeued task to its worker function. -/
def run_task (s : Store) (t : Task) (o : Oracle) (c : CrashPoint) :
    Store × List ResourceStatus × TaskResult :=
  match t with
  | .createVm id => create_vm_task s id o c
  | .createVolume id => create_volume_task s id o c
  | .deleteVm id => delete_vm_task s id c
  | .deleteVolume id => delete_volume_task s id c

/-- One externally triggered step of the system: a synchronous service call
(the API layer can issue any of them at any time with any payload), or the
worker pool picking the `i`-th queued task and running it to completion with
the given random draws and optional injected crash.  Celery with a worker
pool gives no per-resource ordering, so any queued task may be picked.
`createVM`/`createVol` are a create handler running start to finish without
interruption; `createVMCommit`/`createVolCommit` followed (or not) by
`flushInflight`/`dropInflight` are the same handler with the window between
its row commit and its `.delay` exposed, so that other steps can interleave
there and a raising `.delay` can lose the enqueue. -/
inductive Op where
  | createEnv (spec : EnvironmentCreate)
  | createSG (spec : SecurityGroupCreate)
  | createVM (spec : VMCreate)
  | createVol (spec : VolumeCreate)
  | createVMCommit (spec : VMCreate)
  | createVolCommit (spec : VolumeCreate)
  | flushInflight (j : Nat)
  | dropInflight (j : Nat)
  | deleteVM (id : Nat)
  | deleteVol (id : Nat)
  | attach (volume_id vm_id : Nat)
  | detach (volume_id : Nat)
  | runTask (i : Nat) (o : Oracle) (c : CrashPoint)
deriving DecidableEq

/-- Effect of one step on the system state (service-call results themselves
are returned to the API caller and do not feed back into the state).
Running a task removes it from the queue whatever its outcome (Celery acks
it); `runTask` with an out-of-range index is a no-op. -/
def apply_op (sys : Sys) (op : Op) : Sys :=
  match op with
  | .createEnv spec => (create_environment sys spec).1
  | .createSG spec => (create_security_group sys spec).1
  | .createVM spec => (create_vm sys spec).1
  | .createVol spec => (create_volume sys spec).1
  | .createVMCommit spec => (create_vm_commit sys spec).1
  | .createVolCommit spec => (create_volume_commit sys spec).1
  | .flushInflight j =>
    match sys.inflight.get? j with
    | none => sys
    | some t =>
      { store := sys.store
        queued := sys.queued ++ [t]
        history := sys.history ++ [t]
        inflight := sys.inflight.eraseIdx j }
  | .dropInflight j =>
    match sys.inflight.get? j with
    | none => sys
    | some _ => { sys with inflight := sys.inflight.eraseIdx j }
  | .deleteVM id => (delete_vm sys id).1
  | .deleteVol id => (delete_volume sys id).1
  | .attach vid wid => (attach_volume_to_vm sys vid wid).1
  | .detach vid => (detach_volume_from_vm sys vid).1
  | .runTask i o c =>
    match sys.queued.get? i with
    | none => sys
    | some t =>
      { store := (run_task sys.store t o c).1
        queued := sys.queued.eraseIdx i
        history := sys.history
        inflight := sys.inflight }

/-- Run a whole sequence of steps from a given system state. -/
def run_ops (sys : Sys) (ops : List Op) : Sys := ops.foldl apply_op sys

/-- Stage index of the coarse lifecycle order claimed by the spec:
pending → creating → {active, failed} → deleting → deleted. -/
def stageIdx : ResourceStatus → Nat
  | .pending => 0
  | .creating => 1
  | .active => 2
  | .failed => 2
  | .deleting => 3
  | .deleted => 4

/-- `resource_status` of the vms row with key `id`, when present. -/
def vmStage (s : Store) (id : Nat) : Option ResourceStatus :=
  (findVM s id).map (fun v => v.resource_status)

/-- `resource_status` of the volumes row with key `id`, when present. -/
def volumeStage (s : Store) (id : Nat) : Option ResourceStatus :=
  (findVolume s id).map (fun v => v.resource_status)

/-- Boolean check that consecutive elements have non-decreasing stage. -/
def stageMonoB : List ResourceStatus → Bool
  | [] => true
  | [_] => true
  | a :: b :: t => decide (stageIdx a ≤ stageIdx b) && stageMonoB (b :: t)

/-- The list of `resource_status` values a row passes through is monotone in
the claimed stage order. -/
def StageMono (l : List ResourceStatus) : Prop :=
  stageMonoB l = true

instance (l : List ResourceStatus) : Decidable (StageMono l) :=
  inferInstanceAs (Decidable (stageMonoB l = true))

/-! ## Helper lemmas about the store primitives -/

theorem find_upd_generic {α : Type} (idf : α → Nat) (l : List α) (id : Nat) (w : α)
    (hw : idf w = id) (h : (l.find? fun v => idf v = id).isSome) :
    ((l.map fun v => if idf v = id then w else v).find? fun v => idf v = id) = some w := by
  induction l with
  | nil => simp at h
  | cons a t ih =>
    by_cases ha : idf a = id
    · simp only [List.map, if_pos ha]
      exact List.find?_cons_of_pos _ (by simpa using hw)
    · simp only [List.map, if_neg ha]
      rw [List.find?_cons_of_neg _ (by simpa using ha)]
      refine ih ?_
      rwa [List.find?_cons_of_neg _ (by simpa using ha)] at h

theorem mem_upd_generic {α : Type} (idf : α → Nat) (l : List α) (id : Nat) (w : α) (x : α)
    (hx : x ∈ l.map fun v => if idf v = id then w else v) : x = w ∨ x ∈ l := by
  rcases List.mem_map.1 hx with ⟨a, ha, rfl⟩
  by_cases h : idf a = id
  · left; simp [if_pos h]
  · right; simpa [if_neg h]

theorem id_of_findVM {s : Store} {id : Nat} {v : VMRec} (h : findVM s id = some v) :
    v.id = id := by
  have := List.find?_some h
  simpa using this

theorem mem_of_findVM {s : Store} {id : Nat} {v : VMRec} (h : findVM s id = some v) :
    v ∈ s.vms :=
  List.mem_of_find?_eq_some h

theorem id_of_findVolume {s : Store} {id : Nat} {v : VolumeRec} (h : findVolume s id = some v) :
    v.id = id := by
  have := List.find?_some h
  simpa using this

theorem mem_of_findVolume {s : Store} {id : Nat} {v : VolumeRec} (h : findVolume s id = some v) :
    v ∈ s.volumes :=
  List.mem_of_find?_eq_some h

theorem findVM_updVM {s : Store} {id : Nat} (w : VMRec) (hw : w.id = id)
    (h : (findVM s id).isSome) : findVM (updVM s id w) id = some w :=
  find_upd_generic VMRec.id s.vms id w hw h

theorem findVolume_updVolume {s : Store} {id : Nat} (w : VolumeRec) (hw : w.id = id)
    (h : (findVolume s id).isSome) : findVolume (updVolume s id w) id = some w :=
  find_upd_generic VolumeRec.id s.volumes id w hw h

/-! ## Shape lemmas about the worker tasks -/

theorem create_vm_task_volumes (s : Store) (id : Nat) (o : Oracle) (c : CrashPoint) :
    (create_vm_task s id o c).1.volumes = s.volumes := by
  unfold create_vm_task
  cases findVM s id with
  | none => rfl
  | some vm =>
    dsimp only
    split
    · rfl
    · cases c <;> rfl

theorem delete_vm_task_volumes (s : Store) (id : Nat) (c : CrashPoint) :
    (delete_vm_task s id c).1.volumes = s.volumes := by
  unfold delete_vm_task
  cases findVM s id with
  | none => rfl
  | some vm => cases c <;> rfl

theorem create_volume_task_vms (s : Store) (id : Nat) (o : Oracle) (c : CrashPoint) :
    (create_volume_task s id o c).1.vms = s.vms := by
  unfold create_volume_task
  cases findVolume s id with
  | none => rfl
  | some vol =>
    dsimp only
    split
    · rfl
    · cases c <;> rfl

theorem delete_volume_task_vms (s : Store) (id : Nat) (c : CrashPoint) :
    (delete_volume_task s id c).1.vms = s.vms := by
  unfold delete_volume_task
  cases findVolume s id with
  | none => rfl
  | some vol => cases c <;> rfl

theorem create_vm_task_mem (s : Store) (id : Nat) (o : Oracle) (c : CrashPoint) (x : VMRec)
    (hx : x ∈ (create_vm_task s id o c).1.vms) : ∃ a ∈ s.vms, x.id = a.id := by
  unfold create_vm_task at hx
  cases hf : findVM s id with
  | none => rw [hf] at hx; exact ⟨x, hx, rfl⟩
  | some vm =>
    rw [hf] at hx
    have hmem := mem_of_findVM hf
    dsimp only at hx
    have hstep : ∀ w : VMRec,
        x ∈ (updVM (updVM s id { vm with resource_status := .creating, status := .starting }) id w).vms →
        w.id = vm.id →
        ∃ a ∈ s.vms, x.id = a.id := by
      intro w hxw hw
      rcases mem_upd_generic VMRec.id _ id w x hxw with rfl | hx1
      · exact ⟨vm, hmem, hw⟩
      · rcases mem_upd_generic VMRec.id _ id _ x hx1 with rfl | hx0
        · exact ⟨vm, hmem, rfl⟩
        · exact ⟨x, hx0, rfl⟩
    split at hx
    · dsimp only at hx
      exact hstep _ hx rfl
    · cases c
      · dsimp only at hx
        exact hstep _ hx rfl
      · dsimp only at hx
        exact hstep _ hx rfl

theorem delete_vm_task_mem (s : Store) (id : Nat) (c : CrashPoint) (x : VMRec)
    (hx : x ∈ (delete_vm_task s id c).1.vms) : ∃ a ∈ s.vms, x.id = a.id := by
  unfold delete_vm_task at hx
  cases hf : findVM s id with
  | none => rw [hf] at hx; exact ⟨x, hx, rfl⟩
  | some vm =>
    rw [hf] at hx
    have hmem := mem_of_findVM hf
    cases c with
    | duringWork =>
      rcases mem_upd_generic VMRec.id _ id _ x hx with rfl | hx0
      · exact ⟨vm, hmem, rfl⟩
      · exact ⟨x, hx0, rfl⟩
    | noCrash =>
      rcases mem_upd_generic VMRec.id _ id _ x hx with rfl | hx1
      · exact ⟨vm, hmem, rfl⟩
      · rcases mem_upd_generic VMRec.id _ id _ x hx1 with rfl | hx0
        · exact ⟨vm, hmem, rfl⟩
        · exact ⟨x, hx0, rfl⟩

theorem create_volume_task_mem (s : Store) (id : Nat) (o : Oracle) (c : CrashPoint) (x : VolumeRec)
    (hx : x ∈ (create_volume_task s id o c).1.volumes) :
    ∃ a ∈ s.volumes, x.id = a.id ∧ (x = a ∨ x.status ≠ VolumeStatus.in_use) := by
  unfold create_volume_task at hx
  cases hf : findVolume s id with
  | none => rw [hf] at hx; exact ⟨x, hx, rfl, Or.inl rfl⟩
  | some vol =>
    rw [hf] at hx
    have hmem := mem_of_findVolume hf
    dsimp only at hx
    have hstep : ∀ w : VolumeRec,
        x ∈ (updVolume (updVolume s id { vol with resource_status := .creating, status := .creating }) id w).volumes →
        w.id = vol.id → w.status ≠ VolumeStatus.in_use →
        ∃ a ∈ s.volumes, x.id = a.id ∧ (x = a ∨ x.status ≠ VolumeStatus.in_use) := by
      intro w hxw hw hwst
      rcases mem_upd_generic VolumeRec.id _ id w x hxw with rfl | hx1
      · exact ⟨vol, hmem, hw, Or.inr hwst⟩
      · rcases mem_upd_generic VolumeRec.id _ id _ x hx1 with rfl | hx0
        · exact ⟨vol, hmem, rfl, Or.inr (by simp)⟩
        · exact ⟨x, hx0, rfl, Or.inl rfl⟩
    split at hx
    · dsimp only at hx
      exact hstep _ hx rfl (by simp)
    · cases c
      · dsimp only at hx
        exact hstep _ hx rfl (by simp)
      · dsimp only at hx
        exact hstep _ hx rfl (by simp)

theorem delete_volume_task_mem (s : Store) (id : Nat) (c : CrashPoint) (x : VolumeRec)
    (hx : x ∈ (delete_volume_task s id c).1.volumes) :
    ∃ a ∈ s.volumes, x.id = a.id ∧ (x = a ∨ x.status ≠ VolumeStatus.in_use) := by
  unfold delete_volume_task at hx
  cases hf : findVolume s id with
  | none => rw [hf] at hx; exact ⟨x, hx, rfl, Or.inl rfl⟩
  | some vol =>
    rw [hf] at hx
    have hmem := mem_of_findVolume hf
    cases c with
    | duringWork =>
      rcases mem_upd_generic VolumeRec.id _ id _ x hx with rfl | hx0
      · exact ⟨vol, hmem, rfl, Or.inr (by simp)⟩
      · exact ⟨x, hx0, rfl, Or.inl rfl⟩
    | noCrash =>
      rcases mem_upd_generic VolumeRec.id _ id _ x hx with rfl | hx1
      · exact ⟨vol, hmem, rfl, Or.inr (by simp)⟩
      · rcases mem_upd_generic VolumeRec.id _ id _ x hx1 with rfl | hx0
        · exact ⟨vol, hmem, rfl, Or.inr (by simp)⟩
        · exact ⟨x, hx0, rfl, Or.inl rfl⟩

/-! ## Reachability invariants -/

/-- Invariant: no volume in the store has status `in_use`. -/
def NoInUse (s : Store) : Prop :=
  ∀ v ∈ s.volumes, v.status ≠ VolumeStatus.in_use

theorem noInUse_apply_op (sys : Sys) (op : Op) (h : NoInUse sys.store) :
    NoInUse (apply_op sys op).store := by
  cases op with
  | createEnv spec =>
    dsimp only [apply_op, create_environment]
    split
    · exact h
    · exact h
  | createSG spec =>
    dsimp only [apply_op, create_security_group]
    split
    · exact h
    · exact h
  | createVM spec =>
    dsimp only [apply_op, create_vm]
    split
    · exact h
    · split
      · exact h
      · exact h
  | createVol spec =>
    dsimp only [apply_op, create_volume]
    split
    · exact h
    · split
      · exact h
      · intro v hv
        dsimp only [Sys.enqueue] at hv
        rcases List.mem_append.1 hv with hv0 | hv1
        · exact h v hv0
        · rcases List.mem_singleton.1 hv1 with rfl
          simp
  | createVMCommit spec =>
    dsimp only [apply_op, create_vm_commit]
    split
    · exact h
    · split
      · exact h
      · exact h
  | createVolCommit spec =>
    dsimp only [apply_op, create_volume_commit]
    split
    · exact h
    · split
      · exact h
      · intro v hv
        rcases List.mem_append.1 hv with hv0 | hv1
        · exact h v hv0
        · rcases List.mem_singleton.1 hv1 with rfl
          simp
  | flushInflight j =>
    dsimp only [apply_op]
    cases hq : sys.inflight.get? j <;> simp only [hq] <;> exact h
  | dropInflight j =>
    dsimp only [apply_op]
    cases hq : sys.inflight.get? j <;> simp only [hq] <;> exact h
  | deleteVM id =>
    dsimp only [apply_op, delete_vm]
    cases hf : findVM sys.store id <;> simp only [hf] <;> exact h
  | deleteVol id =>
    dsimp only [apply_op, delete_volume]
    cases hf : findVolume sys.store id <;> simp only [hf] <;> exact h
  | attach vid wid =>
    dsimp only [apply_op, attach_volume_to_vm]
    cases hf : findVolume sys.store vid <;> simp only [hf]
    · exact h
    · cases hg : findVM sys.store wid <;> simp only [hg] <;> exact h
  | detach vid =>
    dsimp only [apply_op, detach_volume_from_vm]
    cases hf : findVolume sys.store vid <;> simp only [hf] <;> exact h
  | runTask i o c =>
    dsimp only [apply_op]
    cases hq : sys.queued.get? i with
    | none => simp only [hq]; exact h
    | some t =>
      simp only [hq]
      cases t with
      | createVm id =>
        intro v hv
        dsimp only [run_task] at hv
        rw [create_vm_task_volumes] at hv
        exact h v hv
      | createVolume id =>
        intro v hv
        dsimp only [run_task] at hv
        rcases create_volume_task_mem sys.store id o c v hv with ⟨a, ha, _, hcase⟩
        rcases hcase with rfl | hst
        · exact h _ ha
        · exact hst
      | deleteVm id =>
        intro v hv
        dsimp only [run_task] at hv
        rw [delete_vm_task_volumes] at hv
        exact h v hv
      | deleteVolume id =>
        intro v hv
        dsimp only [run_task] at hv
        rcases delete_volume_task_mem sys.store id c v hv with ⟨a, ha, _, hcase⟩
        rcases hcase with rfl | hst
        · exact h _ ha
        · exact hst

theorem noInUse_run_ops (ops : List Op) :
    ∀ sys : Sys, NoInUse sys.store → NoInUse (run_ops sys ops).store := by
  induction ops with
  | nil => intro sys h; exact h
  | cons op t ih => intro sys h; exact ih (apply_op sys op) (noInUse_apply_op sys op h)

theorem noInUse_reachable (ops : List Op) : NoInUse (run_ops Sys.init ops).store :=
  noInUse_run_ops ops Sys.init (by intro v hv; simp [Sys.init, Store.empty] at hv)

/-- Mapping an id-preserving row update over a table leaves the list of
primary keys unchanged. -/
theorem map_upd_ids {α : Type} (idf : α → Nat) (l : List α) (id : Nat) (w : α)
    (hw : idf w = id) :
    (l.map (fun v => if idf v = id then w else v)).map idf = l.map idf := by
  induction l with
  | nil => rfl
  | cons a t ih =>
    by_cases ha : idf a = id
    · have hwa : idf w = idf a := by rw [hw, ha]
      simp only [List.map, if_pos ha, ih, hwa]
    · simp only [List.map, if_neg ha, ih]

/-- `updVM` with an id-preserving row keeps the table's key list. -/
theorem updVM_ids (s : Store) (id : Nat) (w : VMRec) (hw : w.id = id) :
    (updVM s id w).vms.map VMRec.id = s.vms.map VMRec.id :=
  map_upd_ids VMRec.id s.vms id w hw

/-- `updVolume` with an id-preserving row keeps the table's key list. -/
theorem updVolume_ids (s : Store) (id : Nat) (w : VolumeRec) (hw : w.id = id) :
    (updVolume s id w).volumes.map VolumeRec.id = s.volumes.map VolumeRec.id :=
  map_upd_ids VolumeRec.id s.volumes id w hw

/-- A create-VM task run neither inserts nor removes vms rows. -/
theorem create_vm_task_ids (s : Store) (id : Nat) (o : Oracle) (c : CrashPoint) :
    (create_vm_task s id o c).1.vms.map VMRec.id = s.vms.map VMRec.id := by
  cases hf : findVM s id with
  | none => unfold create_vm_task; rw [hf]
  | some vm =>
    have hid := id_of_findVM hf
    unfold create_vm_task
    rw [hf]
    dsimp only
    split
    · dsimp only
      rw [updVM_ids, updVM_ids] <;> exact hid
    · cases c <;> dsimp only <;> (rw [updVM_ids, updVM_ids] <;> exact hid)

/-- A delete-VM task run neither inserts nor removes vms rows. -/
theorem delete_vm_task_ids (s : Store) (id : Nat) (c : CrashPoint) :
    (delete_vm_task s id c).1.vms.map VMRec.id = s.vms.map VMRec.id := by
  cases hf : findVM s id with
  | none => unfold delete_vm_task; rw [hf]
  | some vm =>
    have hid := id_of_findVM hf
    unfold delete_vm_task
    rw [hf]
    cases c <;> dsimp only
    · rw [updVM_ids, updVM_ids] <;> exact hid
    · rw [updVM_ids] <;> exact hid

/-- A create-volume task run neither inserts nor removes volumes rows. -/
theorem create_volume_task_ids (s : Store) (id : Nat) (o : Oracle) (c : CrashPoint) :
    (create_volume_task s id o c).1.volumes.map VolumeRec.id = s.volumes.map VolumeRec.id := by
  cases hf : findVolume s id with
  | none => unfold create_volume_task; rw [hf]
  | some vol =>
    have hid := id_of_findVolume hf
    unfold create_volume_task
    rw [hf]
    dsimp only
    split
    · dsimp only
      rw [updVolume_ids, updVolume_ids] <;> exact hid
    · cases c <;> dsimp only <;> (rw [updVolume_ids, updVolume_ids] <;> exact hid)

/-- A delete-volume task run neither inserts nor removes volumes rows. -/
theorem delete_volume_task_ids (s : Store) (id : Nat) (c : CrashPoint) :
    (delete_volume_task s id c).1.volumes.map VolumeRec.id = s.volumes.map VolumeRec.id := by
  cases hf : findVolume s id with
  | none => unfold delete_volume_task; rw [hf]
  | some vol =>
    have hid := id_of_findVolume hf
    unfold delete_volume_task
    rw [hf]
    cases c <;> dsimp only
    · rw [updVolume_ids, updVolume_ids] <;> exact hid
    · rw [updVolume_ids] <;> exact hid

/-- Erasing the appended last element gives back the original list. -/
theorem eraseIdx_concat {α : Type} (l : List α) (a : α) :
    (l ++ [a]).eraseIdx l.length = l := by
  induction l with
  | nil => rfl
  | cons x t ih =>
    simp only [List.cons_append, List.length_cons, List.eraseIdx]
    exact congrArg (List.cons x) ih

/-- Whether a task is a create task (the only kind a create handler puts in
`inflight`). -/
def IsCreate : Task → Bool
  | .createVm _ => true
  | .createVolume _ => true
  | .deleteVm _ => false
  | .deleteVolume _ => false

/-- The uninterrupted `create_vm` service call is exactly its commit phase
followed immediately by flushing the obligation it just recorded. -/
theorem create_vm_eq_commit_flush (sys : Sys) (spec : VMCreate) :
    create_vm sys spec =
      (apply_op (create_vm_commit sys spec).1 (.flushInflight sys.inflight.length),
       (create_vm_commit sys spec).2) := by
  unfold create_vm create_vm_commit
  split
  · dsimp only [apply_op]
    rw [List.get?_eq_none.2 (Nat.le_refl _)]
  · split
    · dsimp only [apply_op]
      rw [List.get?_eq_none.2 (Nat.le_refl _)]
    · dsimp only [apply_op, Sys.enqueue]
      rw [List.get?_concat_length, eraseIdx_concat]

/-- The uninterrupted `create_volume` service call is exactly its commit
phase followed immediately by flushing the obligation it just recorded. -/
theorem create_volume_eq_commit_flush (sys : Sys) (spec : VolumeCreate) :
    create_volume sys spec =
      (apply_op (create_volume_commit sys spec).1 (.flushInflight sys.inflight.length),
       (create_volume_commit sys spec).2) := by
  unfold create_volume create_volume_commit
  split
  · dsimp only [apply_op]
    rw [List.get?_eq_none.2 (Nat.le_refl _)]
  · split
    · dsimp only [apply_op]
      rw [List.get?_eq_none.2 (Nat.le_refl _)]
    · dsimp only [apply_op, Sys.enqueue]
      rw [List.get?_concat_length, eraseIdx_concat]

/-- Invariant: every delete task ever enqueued targets an id that names a
row of its table (the delete services look the row up before `.delay`, and
rows are soft-deleted, never removed), and the in-flight enqueue
obligations are all create tasks. -/
def DeleteTargetsRow (sys : Sys) : Prop :=
  (∀ i, Task.deleteVm i ∈ sys.history → i ∈ sys.store.vms.map VMRec.id) ∧
  (∀ i, Task.deleteVolume i ∈ sys.history → i ∈ sys.store.volumes.map VolumeRec.id) ∧
  (∀ t ∈ sys.inflight, IsCreate t = true)

theorem deleteTargetsRow_commitVM (sys : Sys) (spec : VMCreate)
    (h : DeleteTargetsRow sys) : DeleteTargetsRow (create_vm_commit sys spec).1 := by
  obtain ⟨h1, h2, h3⟩ := h
  unfold create_vm_commit
  split
  · exact ⟨h1, h2, h3⟩
  · split
    · exact ⟨h1, h2, h3⟩
    · refine ⟨?_, h2, ?_⟩
      · intro i hi
        rw [List.map_append]
        exact List.mem_append_left _ (h1 i hi)
      · intro t ht
        rcases List.mem_append.1 ht with hl | hr
        · exact h3 t hl
        · rcases List.mem_singleton.1 hr with rfl
          rfl
theorem deleteTargetsRow_commitVol (sys : Sys) (spec : VolumeCreate)
    (h : DeleteTargetsRow sys) : DeleteTargetsRow (create_volume_commit sys spec).1 := by
  obtain ⟨h1, h2, h3⟩ := h
  unfold create_volume_commit
  split
  · exact ⟨h1, h2, h3⟩
  · split
    · exact ⟨h1, h2, h3⟩
    · refine ⟨h1, ?_, ?_⟩
      · intro i hi
        rw [List.map_append]
        exact List.mem_append_left _ (h2 i hi)
      · intro t ht
        rcases List.mem_append.1 ht with hl | hr
        · exact h3 t hl
        · rcases List.mem_singleton.1 hr with rfl
          rfl
theorem deleteTargetsRow_flush (sys : Sys) (j : Nat)
    (h : DeleteTargetsRow sys) : DeleteTargetsRow (apply_op sys (.flushInflight j)) := by
  obtain ⟨h1, h2, h3⟩ := h
  dsimp only [apply_op]
  cases hq : sys.inflight.get? j with
  | none => exact ⟨h1, h2, h3⟩
  | some t =>
    have ht : t ∈ sys.inflight := List.get?_mem hq
    have hct := h3 t ht
    refine ⟨?_, ?_, ?_⟩
    · intro i hi
      rcases List.mem_append.1 hi with hl | hr
      · exact h1 i hl
      · rcases List.mem_singleton.1 hr with heq
        rw [← heq] at hct
        simp [IsCreate] at hct
    · intro i hi
      rcases List.mem_append.1 hi with hl | hr
      · exact h2 i hl
      · rcases List.mem_singleton.1 hr with heq
        rw [← heq] at hct
        simp [IsCreate] at hct
    · intro t2 ht2
      exact h3 t2 (List.mem_of_mem_eraseIdx ht2)
theorem deleteTargetsRow_drop (sys : Sys) (j : Nat)
    (h : DeleteTargetsRow sys) : DeleteTargetsRow (apply_op sys (.dropInflight j)) := by
  obtain ⟨h1, h2, h3⟩ := h
  dsimp only [apply_op]
  cases hq : sys.inflight.get? j with
  | none => exact ⟨h1, h2, h3⟩
  | some t =>
    exact ⟨h1, h2, fun t2 ht2 => h3 t2 (List.mem_of_mem_eraseIdx ht2)⟩
theorem deleteTargetsRow_apply_op (sys : Sys) (op : Op) (h : DeleteTargetsRow sys) :
    DeleteTargetsRow (apply_op sys op) := by
  cases op with
  | createEnv spec =>
    obtain ⟨h1, h2, h3⟩ := h
    dsimp only [apply_op, create_environment]
    split
    · exact ⟨h1, h2, h3⟩
    · exact ⟨h1, h2, h3⟩
  | createSG spec =>
    obtain ⟨h1, h2, h3⟩ := h
    dsimp only [apply_op, create_security_group]
    split
    · exact ⟨h1, h2, h3⟩
    · exact ⟨h1, h2, h3⟩
  | createVM spec =>
    show DeleteTargetsRow (create_vm sys spec).1
    rw [create_vm_eq_commit_flush]
    exact deleteTargetsRow_flush _ _ (deleteTargetsRow_commitVM sys spec h)
  | createVol spec =>
    show DeleteTargetsRow (create_volume sys spec).1
    rw [create_volume_eq_commit_flush]
    exact deleteTargetsRow_flush _ _ (deleteTargetsRow_commitVol sys spec h)
  | createVMCommit spec => exact deleteTargetsRow_commitVM sys spec h
  | createVolCommit spec => exact deleteTargetsRow_commitVol sys spec h
  | flushInflight j => exact deleteTargetsRow_flush sys j h
  | dropInflight j => exact deleteTargetsRow_drop sys j h
  | deleteVM id =>
    obtain ⟨h1, h2, h3⟩ := h
    dsimp only [apply_op, delete_vm]
    cases hf : findVM sys.store id with
    | none => simp only [hf]; exact ⟨h1, h2, h3⟩
    | some vm =>
      simp only [hf]
      refine ⟨?_, ?_, h3⟩ <;> dsimp only [Sys.enqueue] <;> intro i hi
      · rcases List.mem_append.1 hi with hl | hr
        · exact h1 i hl
        · rcases List.mem_singleton.1 hr with heq
          have hii : i = id := by cases heq; rfl
          subst hii
          exact List.mem_map.2 ⟨vm, mem_of_findVM hf, id_of_findVM hf⟩
      · rcases List.mem_append.1 hi with hl | hr
        · exact h2 i hl
        · simp at hr
  | deleteVol id =>
    obtain ⟨h1, h2, h3⟩ := h
    dsimp only [apply_op, delete_volume]
    cases hf : findVolume sys.store id with
    | none => simp only [hf]; exact ⟨h1, h2, h3⟩
    | some vol =>
      simp only [hf]
      refine ⟨?_, ?_, h3⟩ <;> dsimp only [Sys.enqueue] <;> intro i hi
      · rcases List.mem_append.1 hi with hl | hr
        · exact h1 i hl
        · simp at hr
      · rcases List.mem_append.1 hi with hl | hr
        · exact h2 i hl
        · rcases List.mem_singleton.1 hr with heq
          have hii : i = id := by cases heq; rfl
          subst hii
          exact List.mem_map.2 ⟨vol, mem_of_findVolume hf, id_of_findVolume hf⟩
  | attach vid wid =>
    obtain ⟨h1, h2, h3⟩ := h
    dsimp only [apply_op, attach_volume_to_vm]
    cases hf : findVolume sys.store vid <;> simp only [hf]
    · exact ⟨h1, h2, h3⟩
    · cases hg : findVM sys.store wid <;> simp only [hg] <;> exact ⟨h1, h2, h3⟩
  | detach vid =>
    obtain ⟨h1, h2, h3⟩ := h
    dsimp only [apply_op, detach_volume_from_vm]
    cases hf : findVolume sys.store vid <;> simp only [hf] <;> exact ⟨h1, h2, h3⟩
  | runTask i o c =>
    obtain ⟨h1, h2, h3⟩ := h
    dsimp only [apply_op]
    cases hq : sys.queued.get? i with
    | none => simp only [hq]; exact ⟨h1, h2, h3⟩
    | some t =>
      simp only [hq]
      refine ⟨?_, ?_, h3⟩ <;> intro k hk <;> dsimp only at hk ⊢
      · cases t with
        | createVm id =>
          dsimp only [run_task]
          rw [create_vm_task_ids]
          exact h1 k hk
        | createVolume id =>
          dsimp only [run_task]
          rw [create_volume_task_vms]
          exact h1 k hk
        | deleteVm id =>
          dsimp only [run_task]
          rw [delete_vm_task_ids]
          exact h1 k hk
        | deleteVolume id =>
          dsimp only [run_task]
          rw [delete_volume_task_vms]
          exact h1 k hk
      · cases t with
        | createVm id =>
          dsimp only [run_task]
          rw [create_vm_task_volumes]
          exact h2 k hk
        | createVolume id =>
          dsimp only [run_task]
          rw [create_volume_task_ids]
          exact h2 k hk
        | deleteVm id =>
          dsimp only [run_task]
          rw [delete_vm_task_volumes]
          exact h2 k hk
        | deleteVolume id =>
          dsimp only [run_task]
          rw [delete_volume_task_ids]
          exact h2 k hk
theorem deleteTargetsRow_run_ops (ops : List Op) :
    ∀ sys : Sys, DeleteTargetsRow sys → DeleteTargetsRow (run_ops sys ops) := by
  induction ops with
  | nil => intro sys h; exact h
  | cons op t ih =>
    intro sys h
    exact ih (apply_op sys op) (deleteTargetsRow_apply_op sys op h)
theorem deleteTargetsRow_reachable (ops : List Op) :
    DeleteTargetsRow (run_ops Sys.init ops) := by
  refine deleteTargetsRow_run_ops ops Sys.init ⟨?_, ?_, ?_⟩ <;>
    intro x hx <;> simp [Sys.init, Store.empty] at hx

/-! ## Concrete fixtures -/

/-- Oracle whose failure draw misses (`1 ≥ 1/10`). -/
def oracleMiss : Oracle := { sample := mkRat 1 1, xseed := 0, yseed := 0 }

/-- Oracle whose failure draw hits (`0 < 1/10`). -/
def oracleHit : Oracle := { sample := mkRat 0 1, xseed := 0, yseed := 0 }

/-- Request sequence: create an environment, a VM in it, and a volume whose
create request carries `vm_id = 1`. -/
def volWithVmOps : List Op :=
  [ .createEnv { name := "e1" },
    .createVM { name := "vm1", instance_type := "small", environment_id := 1 },
    .createVol { name := "v1", size_gb := 20, environment_id := 1, vm_id := some 1 } ]

/-- The delete-before-create interleaving: create an environment and a VM,
request VM deletion, then let the worker pool pick the delete task (queue
index 1) ahead of the still-queued create task. -/
def deleteFirstOps : List Op :=
  [ .createEnv { name := "e1" },
    .createVM { name := "vm1", instance_type := "small", environment_id := 1 },
    .deleteVM 1,
    .runTask 1 oracleMiss .noCrash ]

/-- The commit-to-enqueue window interleaving: the VM create handler
commits its row (`createVMCommit`), a concurrent delete request then looks
the row up and enqueues the delete task, and only afterwards does the
create handler's pending `.delay` run (`flushInflight 0`). -/
def windowOps : List Op :=
  [ .createEnv { name := "e1" },
    .createVMCommit { name := "vm1", instance_type := "small", environment_id := 1 },
    .deleteVM 1,
    .flushInflight 0 ]

/-- A create handler whose `.delay` raises (broker failure) after the row
commit: the row exists but its create task is never enqueued. -/
def lostEnqueueOps : List Op :=
  [ .createEnv { name := "e1" },
    .createVMCommit { name := "vm1", instance_type := "small", environment_id := 1 },
    .dropInflight 0 ]

/-- A pending VM row as produced by a create request. -/
def vmFix : VMRec :=
  { id := 1, name := "vm1", instance_type := "small", status := .pending
    resource_status := .pending, ip_address := none, environment_id := 1
    security_group_id := none }

/-- A pending volume row as produced by a create request without `vm_id`. -/
def volFix : VolumeRec :=
  { id := 1, name := "v1", size_gb := 20, status := .pending
    resource_status := .pending, environment_id := 1, vm_id := none }

/-- A store with one environment, one pending VM and one pending volume. -/
def storeFix : Store :=
  { environments := [{ id := 1, name := "e1", network_cidr := "10.0.0.0/16", description := none }]
    security_groups := [{ id := 1, name := "sg1", description := none, rules := none }]
    vms := [vmFix], volumes := [volFix]
    next_env_id := 2, next_sg_id := 2, next_vm_id := 2, next_volume_id := 2 }

/-- System state holding `storeFix` with both create tasks still queued. -/
def sysFix : Sys :=
  { store := storeFix, queued := [.createVm 1, .createVolume 1]
    history := [.createVm 1, .createVolume 1], inflight := [] }

/-! ## Claims -/

/-- C1 counterexample: after creating an environment, a VM, and a volume
whose create request carries `vm_id = 1`, the store holds a volume with a
non-null VM reference whose status is `pending`, not `in_use` — so the
claimed iff fails in a reachable store state. -/
theorem C1_counterexample :
    ¬ (∀ v ∈ (run_ops Sys.init volWithVmOps).store.volumes,
        ((v.vm_id ≠ none) ↔ v.status = VolumeStatus.in_use)) := by decide

/-- C1 (amended): in every store state reachable by any sequence of
operations, no volume ever has status `in_use` (the attach path never
commits), so "status `in_use` implies a non-null reference" holds vacuously,
and the claimed iff holds exactly for the volumes whose VM reference is
null — a volume created with a `vm_id` in its request keeps a non-null
reference in every status. -/
theorem C1_amended (ops : List Op) (v : VolumeRec)
    (hv : v ∈ (run_ops Sys.init ops).store.volumes) :
    v.status ≠ VolumeStatus.in_use ∧
    (((v.vm_id ≠ none) ↔ v.status = VolumeStatus.in_use) ↔ v.vm_id = none) := by
  have hs := noInUse_reachable ops v hv
  refine ⟨hs, ?_, ?_⟩
  · intro hiff
    by_contra hne
    exact hs (hiff.1 hne)
  · intro hnone
    exact ⟨fun hne => absurd hnone hne, fun hin => absurd hin hs⟩

/-- Witness for C1 (amended) at the reachable state of `volWithVmOps`. -/
theorem C1_amended_witness :
    ({ id := 1, name := "v1", size_gb := 20, status := .pending
       resource_status := .pending, environment_id := 1, vm_id := some 1 } : VolumeRec)
      ∈ (run_ops Sys.init volWithVmOps).store.volumes ∧
    (({ id := 1, name := "v1", size_gb := 20, status := .pending
        resource_status := .pending, environment_id := 1, vm_id := some 1 } : VolumeRec).status
      ≠ VolumeStatus.in_use) :=
  ⟨by decide, (C1_amended volWithVmOps _ (by decide)).1⟩

/-- C2: whenever the volume and VM lookups succeed, `attach_volume_to_vm`
raises the unhandled `NameError` (the name `VolumeStatus` is never imported
in `app/services.py`) before `safe_commit`, leaving the system unchanged;
likewise `detach_volume_from_vm` whenever its volume lookup succeeds.
Attach and detach never succeed at the service layer. -/
theorem C2_attach_detach_nameError (sys : Sys) (vid wid did : Nat)
    (hv : (findVolume sys.store vid).isSome = true)
    (hw : (findVM sys.store wid).isSome = true)
    (hd : (findVolume sys.store did).isSome = true) :
    attach_volume_to_vm sys vid wid = (sys, Except.error Err.nameError) ∧
    detach_volume_from_vm sys did = (sys, Except.error Err.nameError) := by
  constructor
  · unfold attach_volume_to_vm
    rcases Option.isSome_iff_exists.1 hv with ⟨v, hv2⟩
    rcases Option.isSome_iff_exists.1 hw with ⟨w, hw2⟩
    rw [hv2, hw2]
  · unfold detach_volume_from_vm
    rcases Option.isSome_iff_exists.1 hd with ⟨d, hd2⟩
    rw [hd2]

/-- Witness for C2 on a store holding volume 1 and VM 1. -/
theorem C2_witness :
    attach_volume_to_vm sysFix 1 1 = (sysFix, Except.error Err.nameError) ∧
    detach_volume_from_vm sysFix 1 = (sysFix, Except.error Err.nameError) :=
  ⟨(C2_attach_detach_nameError sysFix 1 1 1 (by decide) (by decide) (by decide)).1,
   (C2_attach_detach_nameError sysFix 1 1 1 (by decide) (by decide) (by decide)).2⟩

/-- C3 counterexample: creating a VM whose spec references environment 1 in
an empty store fails — but with `Err.databaseError` (the FK `IntegrityError`
mapped by `safe_db_operation` to `DatabaseException`, a 500), not with
`Err.notFound`: the service performs no existence validation of the
referenced environment or security group. -/
theorem C3_counterexample :
    create_vm Sys.init { name := "vm1", instance_type := "small", environment_id := 1 }
      = (Sys.init, Except.error Err.databaseError) ∧
    Err.databaseError ≠ Err.notFound := ⟨rfl, by decide⟩

/-- C3 (amended): a VM or Volume create request whose spec references an
absent Environment (or SecurityGroup / VM) id fails before any record is
created and before any task is enqueued — the system state is returned
unchanged — but with a database integrity error (500), not `NotFound`. -/
theorem C3_amended (sys : Sys) :
    (∀ spec : VMCreate, vmNameExists sys.store spec.name = false →
      findEnv sys.store spec.environment_id = none →
      create_vm sys spec = (sys, Except.error Err.databaseError)) ∧
    (∀ spec : VMCreate, vmNameExists sys.store spec.name = false →
      (∃ g, spec.security_group_id = some g ∧ findSG sys.store g = none) →
      create_vm sys spec = (sys, Except.error Err.databaseError)) ∧
    (∀ spec : VolumeCreate, volumeNameExists sys.store spec.name = false →
      findEnv sys.store spec.environment_id = none →
      create_volume sys spec = (sys, Except.error Err.databaseError)) ∧
    (∀ spec : VolumeCreate, volumeNameExists sys.store spec.name = false →
      (∃ w, spec.vm_id = some w ∧ findVM sys.store w = none) →
      create_volume sys spec = (sys, Except.error Err.databaseError)) := by
  refine ⟨?_, ?_, ?_, ?_⟩
  · intro spec hname henv
    unfold create_vm
    simp [hname, henv]
  · intro spec hname hsg
    rcases hsg with ⟨g, hg, hgnone⟩
    unfold create_vm
    simp [hname, hg, hgnone]
  · intro spec hname henv
    unfold create_volume
    simp [hname, henv]
  · intro spec hname hvm
    rcases hvm with ⟨w, hw, hwnone⟩
    unfold create_volume
    simp [hname, hw, hwnone]

/-- Witness for C3 (amended): all four failure modes at concrete stores. -/
theorem C3_amended_witness :
    create_vm Sys.init { name := "vm9", instance_type := "small", environment_id := 7 }
      = (Sys.init, Except.error Err.databaseError) ∧
    create_vm sysFix ⟨"vm9", "small", 1, some 7⟩
      = (sysFix, Except.error Err.databaseError) ∧
    create_volume Sys.init { name := "v9", size_gb := 5, environment_id := 7 }
      = (Sys.init, Except.error Err.databaseError) ∧
    create_volume sysFix ⟨"v9", 5, 1, some 7⟩
      = (sysFix, Except.error Err.databaseError) :=
  ⟨(C3_amended Sys.init).1 _ (by decide) (by decide),
   (C3_amended sysFix).2.1 _ (by decide) ⟨7, rfl, by decide⟩,
   (C3_amended Sys.init).2.2.1 _ (by decide) (by decide),
   (C3_amended sysFix).2.2.2 _ (by decide) ⟨7, rfl, by decide⟩⟩

/-- C4 counterexample: a `delete_volume_task` hit by an unexpected exception
after its first commit (its `except` branch never touches the row) leaves
the volume with `resource_status = deleting`, an intermediate state, not
`failed`; the task merely reports failure. -/
theorem C4_counterexample :
    volumeStage (delete_volume_task storeFix 1 .duringWork).1 1
      = some ResourceStatus.deleting ∧
    ResourceStatus.deleting ≠ ResourceStatus.failed ∧
    (delete_volume_task storeFix 1 .duringWork).2.2 = TaskResult.failure := by
  refine ⟨rfl, by decide, rfl⟩

/-- C4 (amended): an unexpected exception raised after the task has begun
mutating the record leaves a create task's record in `failed`/`failed` (its
`except` branch commits that), but a delete task's record stays in the
intermediate `deleting`/`deleting` state, because the delete tasks' `except`
branches only return an error message. -/
theorem C4_amended :
    (∀ s id o vm, findVM s id = some vm →
      findVM (create_vm_task s id o .duringWork).1 id =
        some { vm with resource_status := .failed, status := .failed } ∧
      (create_vm_task s id o .duringWork).2.2 = TaskResult.failure) ∧
    (∀ s id o vol, findVolume s id = some vol →
      findVolume (create_volume_task s id o .duringWork).1 id =
        some { vol with resource_status := .failed, status := .failed } ∧
      (create_volume_task s id o .duringWork).2.2 = TaskResult.failure) ∧
    (∀ s id vm, findVM s id = some vm →
      findVM (delete_vm_task s id .duringWork).1 id =
        some { vm with resource_status := .deleting, status := .deleting }) ∧
    (∀ s id vol, findVolume s id = some vol →
      findVolume (delete_volume_task s id .duringWork).1 id =
        some { vol with resource_status := .deleting, status := .deleting }) := by
  refine ⟨?_, ?_, ?_, ?_⟩
  · intro s id o vm hv
    have h0 : (findVM s id).isSome := by rw [hv]; rfl
    have hid := id_of_findVM hv
    unfold create_vm_task
    rw [hv]
    dsimp only
    have h1 := findVM_updVM
      { vm with resource_status := .creating, status := .starting } hid h0
    have h1s : (findVM (updVM s id { vm with resource_status := .creating, status := .starting }) id).isSome := by
      rw [h1]; rfl
    split
    · exact ⟨findVM_updVM _ hid h1s, rfl⟩
    · exact ⟨findVM_updVM _ hid h1s, rfl⟩
  · intro s id o vol hv
    have h0 : (findVolume s id).isSome := by rw [hv]; rfl
    have hid := id_of_findVolume hv
    unfold create_volume_task
    rw [hv]
    dsimp only
    have h1 := findVolume_updVolume
      { vol with resource_status := .creating, status := .creating } hid h0
    have h1s : (findVolume (updVolume s id { vol with resource_status := .creating, status := .creating }) id).isSome := by
      rw [h1]; rfl
    split
    · exact ⟨findVolume_updVolume _ hid h1s, rfl⟩
    · exact ⟨findVolume_updVolume _ hid h1s, rfl⟩
  · intro s id vm hv
    have h0 : (findVM s id).isSome := by rw [hv]; rfl
    have hid := id_of_findVM hv
    unfold delete_vm_task
    rw [hv]
    exact findVM_updVM _ hid h0
  · intro s id vol hv
    have h0 : (findVolume s id).isSome := by rw [hv]; rfl
    have hid := id_of_findVolume hv
    unfold delete_volume_task
    rw [hv]
    exact findVolume_updVolume _ hid h0

/-- Witness for C4 (amended) on the concrete one-VM/one-volume store. -/
theorem C4_amended_witness :
    findVM (create_vm_task storeFix 1 oracleMiss .duringWork).1 1 =
      some { vmFix with resource_status := .failed, status := .failed } ∧
    findVolume (delete_volume_task storeFix 1 .duringWork).1 1 =
      some { volFix with resource_status := .deleting, status := .deleting } :=
  ⟨((C4_amended).1 storeFix 1 oracleMiss vmFix (by decide)).1,
   (C4_amended).2.2.2 storeFix 1 volFix (by decide)⟩

/-- Updating a present row keeps it present. -/
theorem findVM_updVM_isSome {s : Store} {id : Nat} (w : VMRec) (hw : w.id = id)
    (h : (findVM s id).isSome) : (findVM (updVM s id w) id).isSome = true := by
  rw [findVM_updVM w hw h]; rfl

/-- Updating a present row keeps it present. -/
theorem findVolume_updVolume_isSome {s : Store} {id : Nat} (w : VolumeRec) (hw : w.id = id)
    (h : (findVolume s id).isSome) : (findVolume (updVolume s id w) id).isSome = true := by
  rw [findVolume_updVolume w hw h]; rfl

/-- The commit trace of a create-VM task run on an existing row is
`[creating, failed]` or `[creating, active]`. -/
theorem create_vm_task_trace (s : Store) (id : Nat) (o : Oracle) (c : CrashPoint)
    (h : (findVM s id).isSome) :
    (create_vm_task s id o c).2.1 = [.creating, .failed] ∨
    (create_vm_task s id o c).2.1 = [.creating, .active] := by
  rcases Option.isSome_iff_exists.1 h with ⟨vm, hv⟩
  unfold create_vm_task
  rw [hv]
  dsimp only
  split
  · left; rfl
  · cases c
    · right; rfl
    · left; rfl

/-- A create-VM task run leaves the targeted row present. -/
theorem create_vm_task_isSome (s : Store) (id : Nat) (o : Oracle) (c : CrashPoint)
    (h : (findVM s id).isSome) : (findVM (create_vm_task s id o c).1 id).isSome := by
  rcases Option.isSome_iff_exists.1 h with ⟨vm, hv⟩
  have hid := id_of_findVM hv
  have h1 := findVM_updVM
    { vm with resource_status := .creating, status := .starting } hid h
  have h1s : (findVM (updVM s id { vm with resource_status := .creating, status := .starting }) id).isSome := by
    rw [h1]; rfl
  unfold create_vm_task
  rw [hv]
  dsimp only
  split
  · dsimp only
    exact findVM_updVM_isSome _ hid h1s
  · cases c
    · dsimp only
      exact findVM_updVM_isSome _ hid h1s
    · dsimp only
      exact findVM_updVM_isSome _ hid h1s

/-- The commit trace of a delete-VM task run on an existing row is
`[deleting]` (crash) or `[deleting, deleted]`. -/
theorem delete_vm_task_trace (s : Store) (id : Nat) (c : CrashPoint)
    (h : (findVM s id).isSome) :
    (delete_vm_task s id c).2.1 = [.deleting] ∨
    (delete_vm_task s id c).2.1 = [.deleting, .deleted] := by
  rcases Option.isSome_iff_exists.1 h with ⟨vm, hv⟩
  unfold delete_vm_task
  rw [hv]
  cases c
  · right; rfl
  · left; rfl

/-- The commit trace of a create-volume task run on an existing row is
`[creating, failed]` or `[creating, active]`. -/
theorem create_volume_task_trace (s : Store) (id : Nat) (o : Oracle) (c : CrashPoint)
    (h : (findVolume s id).isSome) :
    (create_volume_task s id o c).2.1 = [.creating, .failed] ∨
    (create_volume_task s id o c).2.1 = [.creating, .active] := by
  rcases Option.isSome_iff_exists.1 h with ⟨vol, hv⟩
  unfold create_volume_task
  rw [hv]
  dsimp only
  split
  · left; rfl
  · cases c
    · right; rfl
    · left; rfl

/-- A create-volume task run leaves the targeted row present. -/
theorem create_volume_task_isSome (s : Store) (id : Nat) (o : Oracle) (c : CrashPoint)
    (h : (findVolume s id).isSome) : (findVolume (create_volume_task s id o c).1 id).isSome := by
  rcases Option.isSome_iff_exists.1 h with ⟨vol, hv⟩
  have hid := id_of_findVolume hv
  have h1 := findVolume_updVolume
    { vol with resource_status := .creating, status := .creating } hid h
  have h1s : (findVolume (updVolume s id { vol with resource_status := .creating, status := .creating }) id).isSome := by
    rw [h1]; rfl
  unfold create_volume_task
  rw [hv]
  dsimp only
  split
  · dsimp only
    exact findVolume_updVolume_isSome _ hid h1s
  · cases c
    · dsimp only
      exact findVolume_updVolume_isSome _ hid h1s
    · dsimp only
      exact findVolume_updVolume_isSome _ hid h1s

/-- The commit trace of a delete-volume task run on an existing row is
`[deleting]` (crash) or `[deleting, deleted]`. -/
theorem delete_volume_task_trace (s : Store) (id : Nat) (c : CrashPoint)
    (h : (findVolume s id).isSome) :
    (delete_volume_task s id c).2.1 = [.deleting] ∨
    (delete_volume_task s id c).2.1 = [.deleting, .deleted] := by
  rcases Option.isSome_iff_exists.1 h with ⟨vol, hv⟩
  unfold delete_volume_task
  rw [hv]
  cases c
  · right; rfl
  · left; rfl

/-- C5 counterexample: after a VM create request, a deletion request, and
the worker pool running the delete task first, the row is in `deleted` with
the create task still queued; running the queued create task then commits
`creating` (it sets `CREATING` unconditionally) — a regression from stage 4
back to stage 1.  Likewise a second delete request (the soft-deleted row
still passes the lookup, so the service enqueues again) gives a delete task
run that commits `deleting` on the `deleted` row — stage 4 back to 3. -/
theorem C5_counterexample :
    vmStage (run_ops Sys.init deleteFirstOps).store 1 = some ResourceStatus.deleted ∧
    (run_ops Sys.init deleteFirstOps).queued = [Task.createVm 1] ∧
    (run_task (run_ops Sys.init deleteFirstOps).store (Task.createVm 1) oracleMiss .noCrash).2.1
      = [ResourceStatus.creating, ResourceStatus.active] ∧
    ¬ StageMono [ResourceStatus.deleted, ResourceStatus.creating] ∧
    (run_task (run_ops Sys.init deleteFirstOps).store (Task.deleteVm 1) oracleMiss .noCrash).2.1
      = [ResourceStatus.deleting, ResourceStatus.deleted] ∧
    ¬ StageMono [ResourceStatus.deleted, ResourceStatus.deleting] := by
  refine ⟨rfl, rfl, rfl, by decide, rfl, by decide⟩

/-- C5 (amended): monotonicity holds within each single task run — every
commit trace a task run produces is stage-monotone (a create task commits
`creating` then one of `failed`/`active`, a delete task `deleting` then
`deleted`), whatever the random draws and injected crashes.  Across task
runs the status can regress, because a task starting on a row more advanced
than its own stages rewinds it: a create task run after a delete task
regresses `deleted` to `creating`, and a repeated delete task regresses
`deleted` to `deleting`. -/
theorem C5_amended (s : Store) (id : Nat) (o : Oracle) (c : CrashPoint) :
    StageMono (create_vm_task s id o c).2.1 ∧
    StageMono (create_volume_task s id o c).2.1 ∧
    StageMono (delete_vm_task s id c).2.1 ∧
    StageMono (delete_volume_task s id c).2.1 := by
  refine ⟨?_, ?_, ?_, ?_⟩
  · cases hf : findVM s id with
    | none => unfold create_vm_task; rw [hf]; rfl
    | some vm =>
      rcases create_vm_task_trace s id o c (by rw [hf]; rfl) with h | h <;> rw [h] <;> decide
  · cases hf : findVolume s id with
    | none => unfold create_volume_task; rw [hf]; rfl
    | some vol =>
      rcases create_volume_task_trace s id o c (by rw [hf]; rfl) with h | h <;> rw [h] <;> decide
  · cases hf : findVM s id with
    | none => unfold delete_vm_task; rw [hf]; rfl
    | some vm =>
      rcases delete_vm_task_trace s id c (by rw [hf]; rfl) with h | h <;> rw [h] <;> decide
  · cases hf : findVolume s id with
    | none => unfold delete_volume_task; rw [hf]; rfl
    | some vol =>
      rcases delete_volume_task_trace s id c (by rw [hf]; rfl) with h | h <;> rw [h] <;> decide

/-- Number of environments rows carrying a given name. -/
def countEnvName (s : Store) (n : String) : Nat :=
  (s.environments.filter (fun e => e.name = n)).length

/-- Number of security_groups rows carrying a given name. -/
def countSGName (s : Store) (n : String) : Nat :=
  (s.security_groups.filter (fun g => g.name = n)).length

/-- Number of vms rows carrying a given name. -/
def countVMName (s : Store) (n : String) : Nat :=
  (s.vms.filter (fun v => v.name = n)).length

/-- Number of volumes rows carrying a given name. -/
def countVolumeName (s : Store) (n : String) : Nat :=
  (s.volumes.filter (fun v => v.name = n)).length

theorem any_of_count_one {α : Type} (p : α → Bool) (l : List α)
    (h : (l.filter p).length = 1) : l.any p = true := by
  have hne : l.filter p ≠ [] := by
    intro he
    rw [he] at h
    simp at h
  rcases List.exists_mem_of_ne_nil _ hne with ⟨x, hx⟩
  have hx2 := List.mem_filter.1 hx
  exact List.any_eq_true.2 ⟨x, hx2.1, hx2.2⟩

/-- C6: for each of the four entity types, a create request whose name is
already taken (exactly one row of that type has the name) fails with
`AlreadyExists`, returns the system unchanged — so the store still contains
exactly one row with that name — and enqueues nothing. -/
theorem C6_name_uniqueness (sys : Sys) :
    (∀ spec : EnvironmentCreate, countEnvName sys.store spec.name = 1 →
      create_environment sys spec = (sys, Except.error Err.alreadyExists) ∧
      countEnvName (create_environment sys spec).1.store spec.name = 1 ∧
      (create_environment sys spec).1.history = sys.history) ∧
    (∀ spec : SecurityGroupCreate, countSGName sys.store spec.name = 1 →
      create_security_group sys spec = (sys, Except.error Err.alreadyExists) ∧
      countSGName (create_security_group sys spec).1.store spec.name = 1 ∧
      (create_security_group sys spec).1.history = sys.history) ∧
    (∀ spec : VMCreate, countVMName sys.store spec.name = 1 →
      create_vm sys spec = (sys, Except.error Err.alreadyExists) ∧
      countVMName (create_vm sys spec).1.store spec.name = 1 ∧
      (create_vm sys spec).1.history = sys.history) ∧
    (∀ spec : VolumeCreate, countVolumeName sys.store spec.name = 1 →
      create_volume sys spec = (sys, Except.error Err.alreadyExists) ∧
      countVolumeName (create_volume sys spec).1.store spec.name = 1 ∧
      (create_volume sys spec).1.history = sys.history) := by
  refine ⟨?_, ?_, ?_, ?_⟩
  · intro spec h
    have hex : envNameExists sys.store spec.name = true :=
      any_of_count_one _ _ h
    have heq : create_environment sys spec = (sys, Except.error Err.alreadyExists) := by
      unfold create_environment
      rw [hex]
      rfl
    exact ⟨heq, by rw [heq]; exact h, by rw [heq]⟩
  · intro spec h
    have hex : sgNameExists sys.store spec.name = true :=
      any_of_count_one _ _ h
    have heq : create_security_group sys spec = (sys, Except.error Err.alreadyExists) := by
      unfold create_security_group
      rw [hex]
      rfl
    exact ⟨heq, by rw [heq]; exact h, by rw [heq]⟩
  · intro spec h
    have hex : vmNameExists sys.store spec.name = true :=
      any_of_count_one _ _ h
    have heq : create_vm sys spec = (sys, Except.error Err.alreadyExists) := by
      unfold create_vm
      rw [hex]
      rfl
    exact ⟨heq, by rw [heq]; exact h, by rw [heq]⟩
  · intro spec h
    have hex : volumeNameExists sys.store spec.name = true :=
      any_of_count_one _ _ h
    have heq : create_volume sys spec = (sys, Except.error Err.alreadyExists) := by
      unfold create_volume
      rw [hex]
      rfl
    exact ⟨heq, by rw [heq]; exact h, by rw [heq]⟩

/-- Witness for C6 at the concrete one-of-each store. -/
theorem C6_witness :
    create_environment sysFix { name := "e1" } = (sysFix, Except.error Err.alreadyExists) ∧
    create_security_group sysFix { name := "sg1" } = (sysFix, Except.error Err.alreadyExists) ∧
    create_vm sysFix ⟨"vm1", "large", 1, none⟩ = (sysFix, Except.error Err.alreadyExists) ∧
    create_volume sysFix ⟨"v1", 99, 1, none⟩ = (sysFix, Except.error Err.alreadyExists) :=
  ⟨((C6_name_uniqueness sysFix).1 { name := "e1" } (by decide)).1,
   ((C6_name_uniqueness sysFix).2.1 { name := "sg1" } (by decide)).1,
   ((C6_name_uniqueness sysFix).2.2.1 ⟨"vm1", "large", 1, none⟩ (by decide)).1,
   ((C6_name_uniqueness sysFix).2.2.2 ⟨"v1", 99, 1, none⟩ (by decide)).1⟩

/-- C7: a create task that runs to completion with the failure draw missing
and no exception leaves the record `active`; a VM additionally ends
`running` with an assigned address `10.0.x.y`, `x` in 0–255 and `y` in
1–254, and a volume ends `available`; the task reports success. -/
theorem C7_create_success :
    (∀ (s : Store) (id : Nat) (o : Oracle) (vm : VMRec), findVM s id = some vm →
      ¬ (o.sample < worker_failure_rate) →
      findVM (create_vm_task s id o .noCrash).1 id =
        some { vm with
          resource_status := .active
          status := .running
          ip_address := some (10, 0, randint 0 255 o.xseed, randint 1 254 o.yseed) } ∧
      (create_vm_task s id o .noCrash).2.2 = TaskResult.success ∧
      randint 0 255 o.xseed ≤ 255 ∧
      1 ≤ randint 1 254 o.yseed ∧ randint 1 254 o.yseed ≤ 254) ∧
    (∀ (s : Store) (id : Nat) (o : Oracle) (vol : VolumeRec), findVolume s id = some vol →
      ¬ (o.sample < worker_failure_rate) →
      findVolume (create_volume_task s id o .noCrash).1 id =
        some { vol with resource_status := .active, status := .available } ∧
      (create_volume_task s id o .noCrash).2.2 = TaskResult.success) := by
  constructor
  · intro s id o vm hv hs
    have h0 : (findVM s id).isSome := by rw [hv]; rfl
    have hid := id_of_findVM hv
    have h1 := findVM_updVM
      { vm with resource_status := .creating, status := .starting } hid h0
    have h1s : (findVM (updVM s id { vm with resource_status := .creating, status := .starting }) id).isSome := by
      rw [h1]; rfl
    unfold create_vm_task
    rw [hv]
    dsimp only
    rw [if_neg hs]
    dsimp only
    refine ⟨findVM_updVM _ hid h1s, rfl, ?_, ?_, ?_⟩
    · unfold randint; omega
    · unfold randint; omega
    · unfold randint; omega
  · intro s id o vol hv hs
    have h0 : (findVolume s id).isSome := by rw [hv]; rfl
    have hid := id_of_findVolume hv
    have h1 := findVolume_updVolume
      { vol with resource_status := .creating, status := .creating } hid h0
    have h1s : (findVolume (updVolume s id { vol with resource_status := .creating, status := .creating }) id).isSome := by
      rw [h1]; rfl
    unfold create_volume_task
    rw [hv]
    dsimp only
    rw [if_neg hs]
    dsimp only
    exact ⟨findVolume_updVolume _ hid h1s, rfl⟩

/-- Witness for C7 on the concrete one-VM/one-volume store. -/
theorem C7_witness :
    findVM (create_vm_task storeFix 1 oracleMiss .noCrash).1 1 =
      some { vmFix with
        resource_status := .active
        status := .running
        ip_address := some (10, 0, randint 0 255 oracleMiss.xseed, randint 1 254 oracleMiss.yseed) } ∧
    findVolume (create_volume_task storeFix 1 oracleMiss .noCrash).1 1 =
      some { volFix with resource_status := .active, status := .available } :=
  ⟨((C7_create_success).1 storeFix 1 oracleMiss vmFix (by decide) (by decide)).1,
   ((C7_create_success).2 storeFix 1 oracleMiss volFix (by decide) (by decide)).1⟩

/-- C8: when the single failure draw lands below `worker_failure_rate`
(which is the configured default 1/10), the create task commits exactly the
two transitions `creating` then `failed` (kind status `failed` as well),
reports failure, and performs no address assignment or further transition —
the final row differs from the original only in its two status fields. -/
theorem C8_failure_injection :
    worker_failure_rate = 1 / 10 ∧
    (∀ (s : Store) (id : Nat) (o : Oracle) (c : CrashPoint) (vm : VMRec),
      findVM s id = some vm → o.sample < worker_failure_rate →
      (create_vm_task s id o c).2.1 = [ResourceStatus.creating, ResourceStatus.failed] ∧
      (create_vm_task s id o c).2.2 = TaskResult.failure ∧
      findVM (create_vm_task s id o c).1 id =
        some { vm with resource_status := .failed, status := .failed }) ∧
    (∀ (s : Store) (id : Nat) (o : Oracle) (c : CrashPoint) (vol : VolumeRec),
      findVolume s id = some vol → o.sample < worker_failure_rate →
      (create_volume_task s id o c).2.1 = [ResourceStatus.creating, ResourceStatus.failed] ∧
      (create_volume_task s id o c).2.2 = TaskResult.failure ∧
      findVolume (create_volume_task s id o c).1 id =
        some { vol with resource_status := .failed, status := .failed }) := by
  refine ⟨worker_failure_rate_eq, ?_, ?_⟩
  · intro s id o c vm hv hs
    have h0 : (findVM s id).isSome := by rw [hv]; rfl
    have hid := id_of_findVM hv
    have h1 := findVM_updVM
      { vm with resource_status := .creating, status := .starting } hid h0
    have h1s : (findVM (updVM s id { vm with resource_status := .creating, status := .starting }) id).isSome := by
      rw [h1]; rfl
    unfold create_vm_task
    rw [hv]
    dsimp only
    rw [if_pos hs]
    exact ⟨rfl, rfl, findVM_updVM _ hid h1s⟩
  · intro s id o c vol hv hs
    have h0 : (findVolume s id).isSome := by rw [hv]; rfl
    have hid := id_of_findVolume hv
    have h1 := findVolume_updVolume
      { vol with resource_status := .creating, status := .creating } hid h0
    have h1s : (findVolume (updVolume s id { vol with resource_status := .creating, status := .creating }) id).isSome := by
      rw [h1]; rfl
    unfold create_volume_task
    rw [hv]
    dsimp only
    rw [if_pos hs]
    exact ⟨rfl, rfl, findVolume_updVolume _ hid h1s⟩

/-- Witness for C8 with the failing draw `0 < 1/10`. -/
theorem C8_witness :
    (create_vm_task storeFix 1 oracleHit .noCrash).2.1
      = [ResourceStatus.creating, ResourceStatus.failed] ∧
    findVM (create_vm_task storeFix 1 oracleHit .noCrash).1 1 =
      some { vmFix with resource_status := .failed, status := .failed } ∧
    findVolume (create_volume_task storeFix 1 oracleHit .noCrash).1 1 =
      some { volFix with resource_status := .failed, status := .failed } :=
  ⟨((C8_failure_injection).2.1 storeFix 1 oracleHit .noCrash vmFix (by decide) (by decide)).1,
   ((C8_failure_injection).2.1 storeFix 1 oracleHit .noCrash vmFix (by decide) (by decide)).2.2,
   ((C8_failure_injection).2.2 storeFix 1 oracleHit .noCrash volFix (by decide) (by decide)).2.2⟩

/-- C9: `detach_volume_from_vm` on an existing volume never succeeds — each
call raises the unhandled `NameError` (500) before `safe_commit`, leaving
the volume unchanged, so a second call returns exactly the same error and
the volume's status stays `pending` (with its null reference) instead of
becoming `available`: the claimed semantics is the endpoint's documented
intent, and the missing `VolumeStatus` import in `app/services.py`
contradicts it. -/
theorem C9_detach_never_succeeds :
    detach_volume_from_vm sysFix 1 = (sysFix, Except.error Err.nameError) ∧
    detach_volume_from_vm (detach_volume_from_vm sysFix 1).1 1
      = (sysFix, Except.error Err.nameError) ∧
    (findVolume (detach_volume_from_vm (detach_volume_from_vm sysFix 1).1 1).1.store 1).map
        (fun v => (v.status, v.vm_id)) = some (VolumeStatus.pending, none) ∧
    VolumeStatus.pending ≠ VolumeStatus.available :=
  ⟨rfl, rfl, rfl, by decide⟩

/-- C10 counterexample: the enqueue history holds one create and one delete
task for VM 1; the worker pool runs the delete task to completion first (the
row reaches `deleted` while the create task is still queued), and the create
task then starts and runs — after the delete task completed, with no fresh
create request in between.  Nothing serializes the two tasks.  Worse, even
the enqueue order is not guaranteed: through the window between the create
handler's row commit and its `.delay`, a concurrent delete request enqueues
its delete task first (`windowOps`), and a `.delay` that raises leaves a
committed row with no create task at all (`lostEnqueueOps`). -/
theorem C10_counterexample :
    (run_ops Sys.init deleteFirstOps).history = [Task.createVm 1, Task.deleteVm 1] ∧
    vmStage (run_ops Sys.init deleteFirstOps).store 1 = some ResourceStatus.deleted ∧
    (run_ops Sys.init deleteFirstOps).queued = [Task.createVm 1] ∧
    vmStage (run_ops Sys.init (deleteFirstOps ++ [Op.runTask 0 oracleMiss .noCrash])).store 1
      = some ResourceStatus.active ∧
    (run_ops Sys.init (deleteFirstOps ++ [Op.runTask 0 oracleMiss .noCrash])).history
      = [Task.createVm 1, Task.deleteVm 1] ∧
    (run_ops Sys.init windowOps).history = [Task.deleteVm 1, Task.createVm 1] ∧
    (run_ops Sys.init lostEnqueueOps).history = [] ∧
    vmStage (run_ops Sys.init lostEnqueueOps).store 1 = some ResourceStatus.pending :=
  ⟨rfl, rfl, rfl, rfl, rfl, rfl, rfl, rfl⟩

/-- C10 (amended): create and delete tasks for the same resource id are not
serialized in any way — the delete task can complete before the create task
runs, the enqueue order itself can invert through the window between a
create handler's row commit and its `.delay`, and a raising `.delay` can
leave a row with no create task at all.  What does hold: a delete task is
only ever enqueued for an id whose row a create request has already
committed, so in every reachable state every delete task in the enqueue
history targets an id present in its table (`i ∈ ... .map VMRec.id` says a
row with primary key `i` exists; rows are soft-deleted, never removed). -/
theorem C10_amended (ops : List Op) (i : Nat) :
    (Task.deleteVm i ∈ (run_ops Sys.init ops).history →
      i ∈ (run_ops Sys.init ops).store.vms.map VMRec.id) ∧
    (Task.deleteVolume i ∈ (run_ops Sys.init ops).history →
      i ∈ (run_ops Sys.init ops).store.volumes.map VolumeRec.id) :=
  ⟨(deleteTargetsRow_reachable ops).1 i, (deleteTargetsRow_reachable ops).2.1 i⟩

/-- Witness for C10 (amended) on concrete request sequences, including one
that uses the commit-to-enqueue window. -/
theorem C10_amended_witness :
    1 ∈ (run_ops Sys.init deleteFirstOps).store.vms.map VMRec.id ∧
    1 ∈ (run_ops Sys.init (volWithVmOps ++ [Op.deleteVol 1])).store.volumes.map VolumeRec.id ∧
    1 ∈ (run_ops Sys.init windowOps).store.vms.map VMRec.id :=
  ⟨(C10_amended deleteFirstOps 1).1 (by decide),
   (C10_amended (volWithVmOps ++ [Op.deleteVol 1]) 1).2 (by decide),
   (C10_amended windowOps 1).1 (by decide)⟩

end MockCloud
